import Mathlib

/-!
Verification of the real-time voice-signal analysis engine of the
confidencecompass repository.

The engine lives in three analyzer classes:
  * `VoiceAnalyzer` (basic) — src/unnamed/part_000
  * `EnhancedVoiceAnalyzer` — src/unnamed/part_001
  * `AdvancedVoiceAnalyzer` — src/client/src/lib/advanced-audio-analysis.ts

This file gives a shallow embedding of the analysis functions of those
classes.  JavaScript numbers are modelled as rationals (`ℚ`); every
division whose denominator is provably nonzero is translated to rational
division, while the one division that can hit `0 / 0` at runtime (the
shimmer computation in `EnhancedVoiceAnalyzer.analyzeVoiceStability`) is
translated through an explicit model `JsNum` of the JavaScript special
values `NaN` and `±Infinity`.  The environment functions `Math.sqrt` and
`Math.log10` are irrational on most inputs, so the embedded definitions
take them as explicit function parameters; theorems assume only the
properties actually used (non-negativity of the square root, and its
value at 0).  `Uint8Array` contents are modelled as `List ℕ`,
`Float32Array` contents as `List ℚ`, and nullable fields as `Option`/`Bool`.
-/

/-- Model of a JavaScript number that may be one of the special values
`NaN`, `Infinity`, `-Infinity`.  Only the operations the embedded code
needs are defined, each following IEEE/JS semantics. -/
inductive JsNum where
  | num (q : ℚ)
  | posInf
  | negInf
  | nan
deriving DecidableEq, Repr

/-- JavaScript division of two finite numbers: `0 / 0` is `NaN`, `x / 0`
for `x ≠ 0` is a signed infinity, otherwise ordinary division. -/
def jsDiv (a b : ℚ) : JsNum :=
  if b = 0 then
    if a = 0 then JsNum.nan else if a > 0 then JsNum.posInf else JsNum.negInf
  else JsNum.num (a / b)

/-- JavaScript multiplication of a (possibly special) number by a finite
constant.  `NaN` propagates; `Infinity * 0` is `NaN`. -/
def jsMulC (x : JsNum) (c : ℚ) : JsNum :=
  match x with
  | JsNum.num q => JsNum.num (q * c)
  | JsNum.posInf => if c > 0 then JsNum.posInf else if c < 0 then JsNum.negInf else JsNum.nan
  | JsNum.negInf => if c > 0 then JsNum.negInf else if c < 0 then JsNum.posInf else JsNum.nan
  | JsNum.nan => JsNum.nan

/-- JavaScript `Math.min(c, x)` with a finite first argument: `NaN`
propagates. -/
def jsMinC (c : ℚ) (x : JsNum) : JsNum :=
  match x with
  | JsNum.num q => JsNum.num (min c q)
  | JsNum.posInf => JsNum.num c
  | JsNum.negInf => JsNum.negInf
  | JsNum.nan => JsNum.nan

/-- JavaScript `Math.max(c, x)` with a finite first argument: `NaN`
propagates. -/
def jsMaxC (c : ℚ) (x : JsNum) : JsNum :=
  match x with
  | JsNum.num q => JsNum.num (max c q)
  | JsNum.posInf => JsNum.posInf
  | JsNum.negInf => JsNum.num c
  | JsNum.nan => JsNum.nan

/-- JavaScript addition on possibly special numbers. -/
def jsAdd (x y : JsNum) : JsNum :=
  match x, y with
  | JsNum.nan, _ => JsNum.nan
  | _, JsNum.nan => JsNum.nan
  | JsNum.posInf, JsNum.negInf => JsNum.nan
  | JsNum.negInf, JsNum.posInf => JsNum.nan
  | JsNum.posInf, _ => JsNum.posInf
  | _, JsNum.posInf => JsNum.posInf
  | JsNum.negInf, _ => JsNum.negInf
  | _, JsNum.negInf => JsNum.negInf
  | JsNum.num a, JsNum.num b => JsNum.num (a + b)

/-- JavaScript subtraction `c - x` with a finite first argument. -/
def jsSubC (c : ℚ) (x : JsNum) : JsNum :=
  match x with
  | JsNum.num q => JsNum.num (c - q)
  | JsNum.posInf => JsNum.negInf
  | JsNum.negInf => JsNum.posInf
  | JsNum.nan => JsNum.nan

/-- Concrete instantiation of the abstract `Math.sqrt` parameter for
scenarios in which every radicand is `0` (for which `Math.sqrt` returns
`0`).  It trivially satisfies the non-negativity assumption used by the
general theorems. -/
def sqrtZero : ℚ → ℚ := fun _ => 0

/-- Concrete instantiation of the abstract `Math.log10` parameter (its
value is irrelevant to every property proved here, since the code clamps
the result). -/
def log10Zero : ℚ → ℚ := fun _ => 0

/-! ## Character/string utilities (JavaScript `toLowerCase`, `split(' ')`, `trim`)

`EnhancedVoiceAnalyzer.countFillerWords` lowercases the transcription
buffer, splits it on single spaces and compares each trimmed token
against the filler-word lexicon.  Transcripts are modelled as `List Char`. -/

/-- ASCII lowering of one character, as `String.prototype.toLowerCase`
acts on the ASCII range. -/
def lowerChar (c : Char) : Char :=
  if 'A' ≤ c ∧ c ≤ 'Z' then Char.ofNat (c.toNat + 32) else c

/-- Embeds `toLowerCase` acting on a character list. -/
def toLowerL (s : List Char) : List Char := s.map lowerChar

/-- JavaScript `split(' ')`: splits at every single space character;
adjacent separators produce empty tokens, and the result is never the
empty list (the empty string splits to one empty token). -/
def splitSpace : List Char → List (List Char)
  | [] => [[]]
  | c :: rest =>
    match splitSpace rest with
    | [] => [[c]]
    | t :: ts => if c = ' ' then [] :: t :: ts else (c :: t) :: ts

/-- Characters removed by JavaScript `trim` (the ones relevant to this
code base). -/
def isWhitespaceChar (c : Char) : Bool :=
  c = ' ' || c = '\t' || c = '\n' || c = '\r'

/-- JavaScript `trim` over a character list. -/
def trimL (s : List Char) : List Char :=
  ((s.dropWhile isWhitespaceChar).reverse.dropWhile isWhitespaceChar).reverse

/-- The fixed filler-word lexicon of `EnhancedVoiceAnalyzer.analyzeFluency`
(src/unnamed/part_001 line 466). -/
def fillerWordsL : List (List Char) :=
  ["um".toList, "uh".toList, "like".toList, "you know".toList,
   "sort of".toList, "kind of".toList, "actually".toList, "basically".toList]

/-- The single-token entries of the lexicon (the entries that contain no
space). -/
def singleFillerWordsL : List (List Char) :=
  ["um".toList, "uh".toList, "like".toList, "actually".toList, "basically".toList]

/-- Embeds `EnhancedVoiceAnalyzer.countFillerWords` (src/unnamed/part_001 lines
482-485): lowercase the transcription buffer, split on spaces, count the
tokens whose trimmed form is a lexicon entry. -/
def countFillerWords (lexicon : List (List Char)) (transcriptionBuffer : List Char) : ℕ :=
  ((splitSpace (toLowerL transcriptionBuffer)).filter
    (fun word => decide (trimL word ∈ lexicon))).length

/-- Modelled from the spec: "the filler-word count equals the number of
exact case-insensitive occurrences in the transcript of entries of the
fixed lexicon [...] including the multi-word entries".  An occurrence of
an entry is a run of consecutive whitespace-split tokens of the
lowercased transcript equal to the token sequence of the entry. -/
def countTokenRuns (pat toks : List (List Char)) : ℕ :=
  (List.range (toks.length + 1)).countP (fun i => decide ((toks.drop i).take pat.length = pat))

/-- Modelled from the spec: total number of case-insensitive occurrences
of lexicon entries (multi-word entries included) in the transcript. -/
def specFillerOccurrences (transcriptionBuffer : List Char) : ℕ :=
  (fillerWordsL.map
    (fun e => countTokenRuns (splitSpace e) (splitSpace (toLowerL transcriptionBuffer)))).sum

/-! ## The bounded metrics history

`EnhancedVoiceAnalyzer.analyzeCurrentVoice` (src/unnamed/part_001 lines
195-199) appends each snapshot and evicts the oldest entry once the
length exceeds 300. -/

/-- One history tick: `push` then `shift` if over capacity. -/
def historyPush {α : Type} (h : List α) (m : α) : List α :=
  let h2 := h ++ [m]
  if h2.length > 300 then h2.tail else h2

/-! ## EnhancedVoiceAnalyzer (src/unnamed/part_001) -/

namespace Enhanced

/-- Embeds the `voiceStability` sub-record of `EnhancedVoiceMetrics`.  The source
field `harmonicNoiseRatio` is rendered `harmonicNoise` here.  `shimmer`
is a `JsNum` because its computation can produce `NaN` (see
`analyzeVoiceStability`); the divisor of `jitter` is provably positive, so it
stays rational. -/
structure VoiceStability where
  jitter : ℚ
  shimmer : JsNum
  harmonicNoise : ℚ
deriving DecidableEq, Repr

/-- Embeds the `fluency` sub-record of `EnhancedVoiceMetrics`. -/
structure Fluency where
  fillerWordCount : ℕ
  pauseFrequency : ℚ
  speechRate : ℚ
  articulation : ℚ
deriving DecidableEq, Repr

/-- Embeds the `emotion` sub-record of `EnhancedVoiceMetrics`. -/
structure Emotion where
  valence : ℚ
  arousal : ℚ
  dominance : ℚ
  primaryEmotion : String
deriving DecidableEq, Repr

/-- Embeds the `communicationQuality` sub-record of `EnhancedVoiceMetrics`. -/
structure CommunicationQuality where
  eyeContactScore : ℚ
  gestureNaturalness : ℚ
  overallPresence : ℚ
  engagement : ℚ
deriving DecidableEq, Repr

/-- The per-tick metrics snapshot (interface `EnhancedVoiceMetrics`). -/
structure EnhancedVoiceMetrics where
  volume : ℚ
  pitch : ℚ
  clarity : ℚ
  pace : ℚ
  voiceStability : VoiceStability
  fluency : Fluency
  emotion : Emotion
  communicationQuality : CommunicationQuality
  timestamp : ℚ
deriving DecidableEq, Repr

/-- The `trends` component of `RealTimeVoiceAnalysis`. -/
structure Trends where
  volumeTrend : List ℚ
  clarityTrend : List ℚ
  paceTrend : List ℚ
deriving DecidableEq, Repr

/-- Result of `analyzeCurrentVoice` (interface `RealTimeVoiceAnalysis`). -/
structure RealTimeVoiceAnalysis where
  currentMetrics : EnhancedVoiceMetrics
  trends : Trends
  recommendations : List String
  overallScore : JsNum
deriving DecidableEq, Repr

/-- The mutable fields of `EnhancedVoiceAnalyzer` that the analysis path
reads or writes.  Handle-typed fields (`analyser`, connections, nodes)
are modelled by their nullness; `dataArray` / `frequencyData` carry the
byte frames last read from the analyser node. -/
structure EnhancedState where
  analyser : Bool
  dataArray : Option (List ℕ)
  frequencyData : Option (List ℕ)
  audioBuffer : List (List ℚ)
  metricsHistory : List EnhancedVoiceMetrics
  transcriptionBuffer : List Char
  isAnalyzing : Bool
  deepgramConnection : Bool
  scriptProcessor : Bool
  microphone : Bool
  audioContext : Bool
deriving DecidableEq, Repr

/-- The freshly constructed analyzer: every handle null, every buffer
empty. -/
def initialState : EnhancedState :=
  { analyser := false, dataArray := none, frequencyData := none, audioBuffer := [],
    metricsHistory := [], transcriptionBuffer := [], isAnalyzing := false,
    deepgramConnection := false, scriptProcessor := false, microphone := false,
    audioContext := false }

/-- Sum of squares of a raw window (the `reduce` over `sample * sample`). -/
def sumSq (buffer : List ℚ) : ℚ := (buffer.map (fun sample => sample * sample)).sum

/-- Embeds `calculateVolume` (lines 242-253): RMS of the byte time-domain frame
recentred at 128, scaled by 200, clamped above at 100. -/
def calculateVolume (mathSqrt : ℚ → ℚ) (s : EnhancedState) : ℚ :=
  match s.dataArray with
  | none => 0
  | some td =>
    let sum := (td.map (fun (d : ℕ) => let sample := ((d : ℚ) - 128) / 128; sample * sample)).sum
    let rms := mathSqrt (sum / (td.length : ℚ))
    min 100 (rms * 200)

/-- Embeds `autocorrelate` (lines 291-304): normalized autocorrelation; the
divisor `length - lag` is at least 1 for every produced lag. -/
def autocorrelate (buffer : List ℚ) : List ℚ :=
  (List.range buffer.length).map (fun lag =>
    let sum := ((buffer.zip (buffer.drop lag)).map (fun p => p.1 * p.2)).sum
    sum / ((buffer.length - lag : ℕ) : ℚ))

/-- Embeds `detectFundamentalFrequency` (lines 268-289): best autocorrelation
lag in the period band for 80-400 Hz over the latest raw window;
the defaults are 150 Hz for an empty ring and for no positive peak.
`minPeriod = Math.floor(44100/400) = 110`, `maxPeriod = Math.floor(44100/80) = 551`. -/
def detectFundamentalFrequency (s : EnhancedState) : ℚ :=
  match s.audioBuffer.getLast? with
  | none => 150
  | some latestBuffer =>
    let ac := autocorrelate latestBuffer
    let minPeriod : ℕ := 110
    let maxPeriod : ℕ := 551
    let best := (List.range' minPeriod (min maxPeriod ac.length - minPeriod)).foldl
      (fun best period =>
        if ac.getD period 0 > best.2 then (period, ac.getD period 0) else best)
      ((0, 0) : ℕ × ℚ)
    if best.1 > 0 then 44100 / (best.1 : ℚ) else 150

/-- Embeds `calculatePitch` (lines 255-266): fundamental frequency mapped onto
a 0-100 scale over the 80-400 Hz band. -/
def calculatePitch (s : EnhancedState) : ℚ :=
  match s.frequencyData with
  | none => 0
  | some _ =>
    let fundamentalFreq := detectFundamentalFrequency s
    let minPitch : ℚ := 80
    let maxPitch : ℚ := 400
    max 0 (min 100 ((fundamentalFreq - minPitch) / (maxPitch - minPitch) * 100))

/-- Embeds `calculateSpectralCentroid` (lines 319-335): magnitude-weighted mean
frequency over bins 1.., normalized against 4000 Hz.  The loop starts at
index 1, hence the `drop 1` on the enumerated bins. -/
def calculateSpectralCentroid (s : EnhancedState) : ℚ :=
  match s.frequencyData with
  | none => 0
  | some fd =>
    let pairs := fd.enum.drop 1
    let weightedSum := (pairs.map
      (fun (p : ℕ × ℕ) => ((p.1 : ℚ) * 44100) / (2 * (fd.length : ℚ)) * (p.2 : ℚ))).sum
    let magnitudeSum := (pairs.map (fun (p : ℕ × ℕ) => ((p.2 : ℕ) : ℚ))).sum
    let centroid := if magnitudeSum > 0 then weightedSum / magnitudeSum else 0
    min 100 (centroid / 4000 * 100)

/-- The cumulative-energy walk of `calculateSpectralRolloff`. -/
def rolloffLoop (len : ℕ) (threshold : ℚ) : List ℕ → ℕ → ℚ → ℚ
  | [], _, _ => 0
  | v :: rest, i, cum =>
    let cum2 := cum + (v : ℚ) * (v : ℚ)
    if cum2 ≥ threshold then min 100 (((i : ℚ) * 44100) / (2 * (len : ℚ)) / 8000 * 100)
    else rolloffLoop len threshold rest (i + 1) cum2

/-- Embeds `calculateSpectralRolloff` (lines 337-357): first bin at which the
cumulative squared magnitude reaches 85% of the total, normalized
against 8000 Hz. -/
def calculateSpectralRolloff (s : EnhancedState) : ℚ :=
  match s.frequencyData with
  | none => 0
  | some fd =>
    let totalEnergy := (fd.map (fun (v : ℕ) => (v : ℚ) * (v : ℚ))).sum
    rolloffLoop fd.length (totalEnergy * (85/100)) fd 0 0

/-- Embeds `calculateZeroCrossingRate` (lines 359-374): sign changes of the
recentred time-domain frame per sample, scaled by 1000, clamped at 100. -/
def calculateZeroCrossingRate (s : EnhancedState) : ℚ :=
  match s.dataArray with
  | none => 0
  | some td =>
    let crossings := (td.zip (td.drop 1)).countP
      (fun p => decide (((p.2 : ℤ) - 128 > 0 ∧ (p.1 : ℤ) - 128 ≤ 0) ∨
                        ((p.2 : ℤ) - 128 ≤ 0 ∧ (p.1 : ℤ) - 128 > 0)))
    let rate := (crossings : ℚ) / (td.length : ℚ)
    min 100 (rate * 1000)

/-- Embeds `calculateClarity` (lines 306-317): weighted blend of centroid,
rolloff and zero-crossing rate, clamped to [0, 100]. -/
def calculateClarity (s : EnhancedState) : ℚ :=
  match s.frequencyData with
  | none => 0
  | some _ =>
    let clarityScore := calculateSpectralCentroid s * (4/10) +
      calculateSpectralRolloff s * (3/10) + calculateZeroCrossingRate s * (3/10)
    max 0 (min 100 clarityScore)

/-- Embeds `calculatePace` (lines 376-401): fraction of the last 10 raw windows
whose energy exceeds the voice-activity threshold, as a 0-100 rate;
50 when fewer than 10 windows exist.  (`avgEnergyPerBuffer` is computed
and discarded by the source as well.) -/
def calculatePace (s : EnhancedState) : ℚ :=
  if s.audioBuffer.length < 10 then 50
  else
    let recentBuffers := s.audioBuffer.drop (s.audioBuffer.length - 10)
    let bufferEnergies := recentBuffers.map (fun buffer => sumSq buffer)
    let energyChanges := bufferEnergies.countP (fun e => decide (e > 1/100))
    let totalEnergy := (bufferEnergies.filter (fun e => decide (e > 1/100))).sum
    let _avgEnergyPerBuffer := totalEnergy / max 1 ((energyChanges : ℚ))
    let speechRate := ((energyChanges : ℚ) / (recentBuffers.length : ℚ)) * 100
    max 0 (min 100 speechRate)

/-- The five pitch estimates of `analyzeVoiceStability`: the source maps
over `audioBuffer.slice(-5)` with a callback that ignores its argument,
so each of the five values is `detectFundamentalFrequency()` recomputed
on the same latest window. -/
def recentPitchValues (s : EnhancedState) : List ℚ :=
  (s.audioBuffer.drop (s.audioBuffer.length - 5)).map (fun _ => detectFundamentalFrequency s)

/-- The five per-window RMS amplitudes of `analyzeVoiceStability`. -/
def recentAmplitudes (mathSqrt : ℚ → ℚ) (s : EnhancedState) : List ℚ :=
  (s.audioBuffer.drop (s.audioBuffer.length - 5)).map
    (fun buffer => mathSqrt (sumSq buffer / (buffer.length : ℚ)))

/-- Embeds `findSpectralPeaks` (lines 444-463): bins strictly above 50 and
strictly above both neighbours on each side, in index order, first 10. -/
def findSpectralPeaks (s : EnhancedState) : List (ℚ × ℚ) :=
  match s.frequencyData with
  | none => []
  | some fd =>
    let idxs := (List.range fd.length).filter (fun i => decide (2 ≤ i ∧ i + 2 < fd.length ∧
      fd.getD i 0 > 50 ∧ fd.getD i 0 > fd.getD (i - 1) 0 ∧ fd.getD i 0 > fd.getD (i + 1) 0 ∧
      fd.getD i 0 > fd.getD (i - 2) 0 ∧ fd.getD i 0 > fd.getD (i + 2) 0))
    (idxs.map (fun (i : ℕ) =>
      (((i : ℚ) * 44100) / (2 * (fd.length : ℚ)), (fd.getD i 0 : ℚ)))).take 10

/-- Embeds `estimateHNR` (lines 432-442): peak energy against the remaining
energy, through `20 * log10(hnr + 1)`, clamped to [0, 30].  `Math.log10`
is abstracted as a parameter; the clamp makes every property proved here
independent of its values. -/
def estimateHNR (log10 : ℚ → ℚ) (s : EnhancedState) : ℚ :=
  match s.frequencyData with
  | none => 15
  | some fd =>
    let peaks := findSpectralPeaks s
    let harmonicEnergy := (peaks.map (fun peak => peak.2)).sum
    let totalEnergy := (fd.map (fun (v : ℕ) => (v : ℚ))).sum
    let hnr := harmonicEnergy / max 1 (totalEnergy - harmonicEnergy)
    max 0 (min 30 (20 * log10 (hnr + 1)))

/-- Embeds `analyzeVoiceStability` (lines 403-430).  With fewer than 5 raw
windows it returns the documented defaults jitter 0 / shimmer 0 / HNR 15.
Otherwise jitter divides by the mean pitch (provably positive, rational
division is faithful) while shimmer divides by the mean RMS amplitude,
which is 0 for silent windows: there JavaScript computes 0/0 = NaN and
`Math.min(10, NaN) = NaN`, modelled through `jsDiv`/`jsMinC`. -/
def analyzeVoiceStability (mathSqrt log10 : ℚ → ℚ) (s : EnhancedState) : VoiceStability :=
  if s.audioBuffer.length < 5 then
    { jitter := 0, shimmer := JsNum.num 0, harmonicNoise := 15 }
  else
    let pitchValues := recentPitchValues s
    let avgPitch := pitchValues.sum / (pitchValues.length : ℚ)
    let pitchVariations := pitchValues.map (fun p => |p - avgPitch|)
    let jitter := pitchVariations.sum / (pitchVariations.length : ℚ) / avgPitch * 100
    let amplitudeValues := recentAmplitudes mathSqrt s
    let avgAmplitude := amplitudeValues.sum / (amplitudeValues.length : ℚ)
    let amplitudeVariations := amplitudeValues.map (fun a => |a - avgAmplitude|)
    let shimmer := jsMulC
      (jsDiv (amplitudeVariations.sum / (amplitudeVariations.length : ℚ)) avgAmplitude) 100
    { jitter := min 10 jitter,
      shimmer := jsMinC 10 shimmer,
      harmonicNoise := estimateHNR log10 s }

/-- Embeds `analyzePauses` (lines 487-506): fraction of the last 20 windows with
mean energy below the threshold, as a 0-100 rate; 0 with fewer than 10
windows. -/
def analyzePauses (s : EnhancedState) : ℚ :=
  if s.audioBuffer.length < 10 then 0
  else
    let recent := s.audioBuffer.drop (s.audioBuffer.length - 20)
    let pauseCount := recent.countP (fun buffer =>
      decide (sumSq buffer / (buffer.length : ℚ) < 1/100))
    ((pauseCount : ℚ) / ((min 20 s.audioBuffer.length : ℕ) : ℚ)) * 100

/-- Embeds `calculateSpeechRate` (lines 508-518): words of the trimmed
transcription buffer per minute of history, normalized to 0-100 over the
80-200 WPM band; 0 with empty history. -/
def calculateSpeechRate (s : EnhancedState) : ℚ :=
  let words := (splitSpace (trimL s.transcriptionBuffer)).filter (fun w => decide (w.length > 0))
  let timeWindow := min 60 s.metricsHistory.length
  if timeWindow = 0 then 0
  else
    let wordsPerMinute := ((words.length : ℚ) / (timeWindow : ℚ)) * 60
    max 0 (min 100 ((wordsPerMinute - 80) / (200 - 80) * 100))

/-- Embeds `calculateHighFrequencyEnergy` (lines 528-543): share of magnitude in
the top 40% of bins.  `Math.floor(length * 0.6)` is `(3 * length) / 5` on
naturals. -/
def calculateHighFrequencyEnergy (s : EnhancedState) : ℚ :=
  match s.frequencyData with
  | none => 0
  | some fd =>
    let highFreqStart := 3 * fd.length / 5
    let totalSum := (fd.map (fun (v : ℕ) => (v : ℚ))).sum
    let highFreqSum := ((fd.drop highFreqStart).map (fun (v : ℕ) => (v : ℚ))).sum
    if totalSum > 0 then highFreqSum / totalSum * 100 else 0

/-- Embeds `calculateArticulation` (lines 520-526). -/
def calculateArticulation (s : EnhancedState) : ℚ :=
  max 0 (min 100 (calculateSpectralCentroid s * (6/10) + calculateHighFrequencyEnergy s * (4/10)))

/-- Embeds `analyzeFluency` (lines 465-480). -/
def analyzeFluency (s : EnhancedState) : Fluency :=
  { fillerWordCount := countFillerWords fillerWordsL s.transcriptionBuffer,
    pauseFrequency := analyzePauses s,
    speechRate := calculateSpeechRate s,
    articulation := calculateArticulation s }

/-- Embeds `analyzeEmotion` (lines 545-565): heuristic dimensions with a fixed
priority order for the label. -/
def analyzeEmotion (mathSqrt log10 : ℚ → ℚ) (s : EnhancedState) : Emotion :=
  let spectralCentroid := calculateSpectralCentroid s
  let energy := calculateVolume mathSqrt s
  let pitch := calculatePitch s
  let arousal := min 100 (energy * (6/10) + spectralCentroid * (4/10))
  let valence := min 100 (pitch * (4/10) +
    (100 - (analyzeVoiceStability mathSqrt log10 s).jitter * 10) * (6/10))
  let dominance := min 100 (energy * (5/10) + calculateClarity s * (5/10))
  let primaryEmotion :=
    if arousal > 60 ∧ valence > 60 then "happy"
    else if arousal > 60 ∧ valence < 40 then "angry"
    else if arousal < 40 ∧ valence < 40 then "sad"
    else if arousal > 70 then "excited"
    else if dominance > 70 then "confident"
    else "neutral"
  { valence := valence, arousal := arousal, dominance := dominance,
    primaryEmotion := primaryEmotion }

/-- Embeds `analyzeCommunicationQuality` (lines 567-577): fixed placeholder
values. -/
def analyzeCommunicationQuality : CommunicationQuality :=
  { eyeContactScore := 75, gestureNaturalness := 80, overallPresence := 78, engagement := 82 }

/-- Embeds `calculateEnhancedMetrics` (lines 218-240).  `Date.now()` is passed
in as `now`. -/
def calculateEnhancedMetrics (mathSqrt log10 : ℚ → ℚ) (now : ℚ) (s : EnhancedState) :
    EnhancedVoiceMetrics :=
  { volume := calculateVolume mathSqrt s,
    pitch := calculatePitch s,
    clarity := calculateClarity s,
    pace := calculatePace s,
    voiceStability := analyzeVoiceStability mathSqrt log10 s,
    fluency := analyzeFluency s,
    emotion := analyzeEmotion mathSqrt log10 s,
    communicationQuality := analyzeCommunicationQuality,
    timestamp := now }

/-- Embeds `calculateTrends` (lines 579-587): the scalar series of the last 30
snapshots. -/
def calculateTrends (s : EnhancedState) : Trends :=
  let recent := s.metricsHistory.drop (s.metricsHistory.length - 30)
  { volumeTrend := recent.map (fun m => m.volume),
    clarityTrend := recent.map (fun m => m.clarity),
    paceTrend := recent.map (fun m => m.pace) }

/-- Embeds `generateRecommendations` (lines 589-626): the fixed rule table, in
source order, truncated to the first three triggered messages.  The
`trends` argument is received and ignored, as in the source body. -/
def generateRecommendations (metrics : EnhancedVoiceMetrics) (_trends : Trends) : List String :=
  let recs : List String :=
    (if metrics.volume < 30 then ["Speak louder for better projection"]
     else if metrics.volume > 80 then ["Lower your voice volume slightly"] else []) ++
    (if metrics.clarity < 60 then ["Focus on clearer articulation"] else []) ++
    (if metrics.pace < 30 then ["Increase your speaking pace"]
     else if metrics.pace > 80 then ["Slow down your speaking pace"] else []) ++
    (if metrics.fluency.fillerWordCount > 3 then ["Reduce use of filler words"] else []) ++
    (if metrics.fluency.pauseFrequency > 30 then ["Reduce excessive pauses"] else []) ++
    (if metrics.voiceStability.jitter > 2 then ["Work on voice steadiness"] else [])
  recs.take 3

/-- Embeds `calculateOverallScore` (lines 628-651): fixed-weight blend; the
shimmer term makes the stability penalty a `JsNum`. -/
def calculateOverallScore (metrics : EnhancedVoiceMetrics) : JsNum :=
  let stabilityScore := jsSubC 100
    (jsAdd (JsNum.num (metrics.voiceStability.jitter * 5)) (jsMulC metrics.voiceStability.shimmer 5))
  let fluencyScore : ℚ := 100 -
    ((metrics.fluency.fillerWordCount : ℚ) * 5 + metrics.fluency.pauseFrequency * (5/10))
  let emotionScore : ℚ :=
    (metrics.emotion.valence + metrics.emotion.arousal + metrics.emotion.dominance) / 3
  let score := jsAdd
    (JsNum.num (metrics.volume * (15/100) + metrics.clarity * (25/100) + metrics.pace * (20/100)))
    (jsAdd (jsMulC (jsMaxC 0 stabilityScore) (15/100))
      (JsNum.num (max 0 fluencyScore * (15/100) + emotionScore * (10/100))))
  jsMaxC 0 (jsMinC 100 score)

/-- Embeds `analyzeCurrentVoice` (lines 183-216): fails when the analyser or
either data array is null; otherwise reads the fresh frames `td`/`fd`
into the state, computes the snapshot, appends it to the bounded
history, and returns snapshot + trends + recommendations + score. -/
def analyzeCurrentVoice (mathSqrt log10 : ℚ → ℚ) (now : ℚ) (td fd : List ℕ)
    (s : EnhancedState) : Except String RealTimeVoiceAnalysis × EnhancedState :=
  if s.analyser = false ∨ s.dataArray = none ∨ s.frequencyData = none then
    (Except.error "Analyzer not initialized", s)
  else
    let s1 := { s with dataArray := some td, frequencyData := some fd }
    let currentMetrics := calculateEnhancedMetrics mathSqrt log10 now s1
    let s2 := { s1 with metricsHistory := historyPush s1.metricsHistory currentMetrics }
    let trends := calculateTrends s2
    let recommendations := generateRecommendations currentMetrics trends
    let overallScore := calculateOverallScore currentMetrics
    (Except.ok { currentMetrics := currentMetrics, trends := trends,
                 recommendations := recommendations, overallScore := overallScore }, s2)

/-- Embeds `destroy` (lines 661-693): releases every handle and clears the
buffers, the history and the transcript.  `dataArray`/`frequencyData`
are not cleared by the source. -/
def destroy (s : EnhancedState) : EnhancedState :=
  { s with
    isAnalyzing := false
    deepgramConnection := false
    scriptProcessor := false
    microphone := false
    analyser := false
    audioContext := false
    audioBuffer := []
    metricsHistory := []
    transcriptionBuffer := [] }

end Enhanced

/-! ## VoiceAnalyzer, the basic analyzer (src/unnamed/part_000) -/

namespace Basic

/-- Embeds `AudioAnalysisConfig` of the basic analyzer. -/
structure AudioAnalysisConfig where
  sampleRate : ℚ
  fftSize : ℕ
  smoothingTimeConstant : ℚ
deriving DecidableEq, Repr

/-- Embeds `VoiceAnalysisResult` of the basic analyzer. -/
structure VoiceAnalysisResult where
  volume : ℚ
  pitch : ℚ
  clarity : ℚ
  pace : ℚ
  voiceActivity : Bool
deriving DecidableEq, Repr

/-- Nullable handle fields of `VoiceAnalyzer`. -/
structure BasicState where
  audioContext : Bool
  analyser : Bool
  microphone : Bool
  dataArray : Option (List ℕ)
  frequencyData : Option (List ℕ)
deriving DecidableEq, Repr

/-- The freshly constructed basic analyzer. -/
def initialState : BasicState :=
  { audioContext := false, analyser := false, microphone := false,
    dataArray := none, frequencyData := none }

/-- Embeds `calculateVolume` (src/unnamed/part_000 lines 69-77): RMS of the
recentred byte frame, scaled by `100 * 3`, clamped above at 100. -/
def calculateVolume (mathSqrt : ℚ → ℚ) (timeData : List ℕ) : ℚ :=
  let sum := (timeData.map (fun (d : ℕ) => let sample := ((d : ℚ) - 128) / 128; sample * sample)).sum
  let rms := mathSqrt (sum / (timeData.length : ℚ))
  min 100 (rms * 100 * 3)

/-- Embeds `calculatePitch` (lines 79-98): dominant bin in the 80-1000 Hz band.
The source redeclares `maxIndex` for the upper search bound (a
JavaScript shadowing slip); the two roles get separate names here. -/
def calculatePitch (cfg : AudioAnalysisConfig) (frequencyData : List ℕ) : ℚ :=
  let minIndex := Int.toNat ⌊80 * (frequencyData.length : ℚ) / (cfg.sampleRate / 2)⌋
  let maxIndexBound := Int.toNat ⌊1000 * (frequencyData.length : ℚ) / (cfg.sampleRate / 2)⌋
  let best := (List.range' minIndex (min maxIndexBound frequencyData.length - minIndex)).foldl
    (fun best i =>
      if frequencyData.getD i 0 > best.2 then (i, frequencyData.getD i 0) else best)
    ((0, 0) : ℕ × ℕ)
  ((best.1 : ℚ) * cfg.sampleRate / 2) / (frequencyData.length : ℚ)

/-- Embeds `calculateClarity` (lines 100-119): spectral centroid normalized
against 4000 Hz; 0 when the spectrum is all zero. -/
def calculateClarity (cfg : AudioAnalysisConfig) (frequencyData : List ℕ) : ℚ :=
  let pairs := frequencyData.enum
  let weightedSum := (pairs.map (fun (p : ℕ × ℕ) =>
    ((p.1 : ℚ) * cfg.sampleRate / 2) / (frequencyData.length : ℚ) * (p.2 : ℚ))).sum
  let magnitudeSum := (pairs.map (fun (p : ℕ × ℕ) => ((p.2 : ℕ) : ℚ))).sum
  if magnitudeSum = 0 then 0
  else min 100 (weightedSum / magnitudeSum / 4000 * 100)

/-- Embeds `detectVoiceActivity` (lines 121-124): volume above the threshold 5. -/
def detectVoiceActivity (mathSqrt : ℚ → ℚ) (timeData : List ℕ) : Bool :=
  decide (calculateVolume mathSqrt timeData > 5)

/-- Embeds `estimateSpeakingPace` (lines 126-130): `Math.random() * 120 + 60`.
The pseudo-random draw (a value in [0, 1)) is made an explicit argument;
the function reads no audio data at all. -/
def estimateSpeakingPace (randomDraw : ℚ) : ℚ :=
  randomDraw * 120 + 60

/-- Embeds `analyze` (lines 43-67): fails when the analyser or either data
array is null; otherwise reads fresh frames and runs the extractors.
`randomDraw` feeds `estimateSpeakingPace`. -/
def analyze (cfg : AudioAnalysisConfig) (mathSqrt : ℚ → ℚ) (randomDraw : ℚ)
    (td fd : List ℕ) (s : BasicState) : Except String VoiceAnalysisResult × BasicState :=
  if s.analyser = false ∨ s.dataArray = none ∨ s.frequencyData = none then
    (Except.error "Analyzer not initialized", s)
  else
    let s1 := { s with dataArray := some td, frequencyData := some fd }
    (Except.ok
      { volume := calculateVolume mathSqrt td
        pitch := calculatePitch cfg fd
        clarity := calculateClarity cfg fd
        pace := estimateSpeakingPace randomDraw
        voiceActivity := detectVoiceActivity mathSqrt td }, s1)

end Basic

/-! ## AdvancedVoiceAnalyzer (src/client/src/lib/advanced-audio-analysis.ts) -/

namespace Advanced

/-- Nullable handle and buffer fields of `AdvancedVoiceAnalyzer` touched
by `destroy` (lines 558-581).  `audioContext` is `none` when null, and
`some c` when present with `c` recording whether its state is closed
(the source compares the context state against the closed state before closing). -/
structure AdvancedState where
  scriptProcessor : Bool
  microphone : Bool
  analyser : Bool
  audioContext : Option Bool
  audioBuffer : List (List ℚ)
  dataArray : Option (List ℕ)
  frequencyData : Option (List ℕ)
deriving DecidableEq, Repr

/-- Embeds `destroy` (lines 558-581): disconnect and null each handle that is
present, close-and-null the audio context unless it is already closed,
clear the audio buffer.  `dataArray`/`frequencyData` are not cleared by
the source. -/
def destroy (s : AdvancedState) : AdvancedState :=
  { s with
    scriptProcessor := false
    microphone := false
    analyser := false
    audioContext := (match s.audioContext with
      | some false => none
      | x => x)
    audioBuffer := [] }

end Advanced

/-! ## Concrete instances used by witnesses -/

/-- The default configuration of `createVoiceAnalyzer`
(src/unnamed/part_000 lines 147-156). -/
def cfg0 : Basic.AudioAnalysisConfig :=
  { sampleRate := 44100, fftSize := 2048, smoothingTimeConstant := 8/10 }

/-- An initialized enhanced-analyzer state with an empty raw-window
ring. -/
def c10State : Enhanced.EnhancedState :=
  { Enhanced.initialState with analyser := true, dataArray := some [128], frequencyData := some [] }

/-- An initialized enhanced-analyzer state holding a silent (all-128)
time-domain frame. -/
def c7State : Enhanced.EnhancedState :=
  { Enhanced.initialState with analyser := true, dataArray := some [128, 128],
                               frequencyData := some [] }

/-! ## Theorems -/

/-- Claim C8: `destroy()` is idempotent for both the enhanced and the
advanced analyzer: a second call raises no error (the model is a total
function) and leaves the state exactly as the first call left it. -/
theorem c8_destroy_idempotent :
    (∀ s : Enhanced.EnhancedState, Enhanced.destroy (Enhanced.destroy s) = Enhanced.destroy s) ∧
    (∀ s : Advanced.AdvancedState, Advanced.destroy (Advanced.destroy s) = Advanced.destroy s) := by
  constructor
  · intro s; rfl
  · intro s
    unfold Advanced.destroy
    rcases hc : s.audioContext with _ | b
    · simp [hc]
    · cases b <;> simp [hc]

/-- Claim C6: with fewer than 5 raw windows in the ring, the
voice-stability extractor returns exactly its documented defaults
(jitter 0, shimmer 0, harmonic-to-noise ratio 15) and cannot throw (the
model is a total function). -/
theorem c6_stability_defaults (mathSqrt log10 : ℚ → ℚ) (s : Enhanced.EnhancedState)
    (h : s.audioBuffer.length < 5) :
    Enhanced.analyzeVoiceStability mathSqrt log10 s =
      { jitter := 0, shimmer := JsNum.num 0, harmonicNoise := 15 } := by
  unfold Enhanced.analyzeVoiceStability
  simp [h]

/-- Witness for C6: the freshly constructed analyzer has an empty ring. -/
theorem c6_stability_defaults_witness :
    Enhanced.initialState.audioBuffer.length < 5 ∧
    Enhanced.analyzeVoiceStability sqrtZero log10Zero Enhanced.initialState =
      { jitter := 0, shimmer := JsNum.num 0, harmonicNoise := 15 } :=
  ⟨by decide, c6_stability_defaults sqrtZero log10Zero Enhanced.initialState (by decide)⟩

/-- Claim C10: on an initialized enhanced analyzer whose raw-window ring
is empty, `detectFundamentalFrequency` returns its 150 Hz default and
the reported pitch metric is exactly ((150 - 80) / (400 - 80)) * 100 =
21.875 = 175/8 — neither 0 nor an error. -/
theorem c10_pitch_default (s : Enhanced.EnhancedState) (fd : List ℕ)
    (hfd : s.frequencyData = some fd) (hbuf : s.audioBuffer = []) :
    Enhanced.detectFundamentalFrequency s = 150 ∧
    Enhanced.calculatePitch s = 175 / 8 := by
  have hdet : Enhanced.detectFundamentalFrequency s = 150 := by
    unfold Enhanced.detectFundamentalFrequency
    rw [hbuf]
    rfl
  refine ⟨hdet, ?_⟩
  unfold Enhanced.calculatePitch
  rw [hfd, hdet]
  norm_num [min_def, max_def]

/-- Witness for C10. -/
theorem c10_pitch_default_witness :
    c10State.frequencyData = some [] ∧ c10State.audioBuffer = [] ∧
    (Enhanced.detectFundamentalFrequency c10State = 150 ∧
     Enhanced.calculatePitch c10State = 175 / 8) :=
  ⟨rfl, rfl, c10_pitch_default c10State [] rfl rfl⟩

/-- Claim C5: calling `analyze()` (basic) or `analyzeCurrentVoice()`
(enhanced) before a successful initialization — i.e. while the analyser
handle is still null — fails with the not-initialized error, returns no
metrics snapshot, and leaves the state (in particular the metrics
history) unchanged. -/
theorem c5_analyze_before_init (cfg : Basic.AudioAnalysisConfig) (mathSqrt log10 : ℚ → ℚ)
    (randomDraw now : ℚ) (td fd : List ℕ) (bs : Basic.BasicState)
    (es : Enhanced.EnhancedState) (hb : bs.analyser = false) (he : es.analyser = false) :
    Basic.analyze cfg mathSqrt randomDraw td fd bs =
      (Except.error "Analyzer not initialized", bs) ∧
    Enhanced.analyzeCurrentVoice mathSqrt log10 now td fd es =
      (Except.error "Analyzer not initialized", es) := by
  constructor
  · unfold Basic.analyze
    simp [hb]
  · unfold Enhanced.analyzeCurrentVoice
    simp [he]

/-- Witness for C5: both freshly constructed analyzers. -/
theorem c5_analyze_before_init_witness :
    Basic.initialState.analyser = false ∧ Enhanced.initialState.analyser = false ∧
    (Basic.analyze cfg0 sqrtZero 0 [] [] Basic.initialState =
      (Except.error "Analyzer not initialized", Basic.initialState) ∧
     Enhanced.analyzeCurrentVoice sqrtZero log10Zero 0 [] [] Enhanced.initialState =
      (Except.error "Analyzer not initialized", Enhanced.initialState)) :=
  ⟨rfl, rfl, c5_analyze_before_init cfg0 sqrtZero log10Zero 0 0 [] []
    Basic.initialState Enhanced.initialState rfl rfl⟩

/-- The snapshot of claim C3: volume 10, clarity 90, pace 50, no fluency
or stability issues. -/
def recTestMetrics : Enhanced.EnhancedVoiceMetrics :=
  { volume := 10, pitch := 0, clarity := 90, pace := 50,
    voiceStability := { jitter := 0, shimmer := JsNum.num 0, harmonicNoise := 15 },
    fluency := { fillerWordCount := 0, pauseFrequency := 0, speechRate := 0, articulation := 0 },
    emotion := { valence := 0, arousal := 0, dominance := 0, primaryEmotion := "neutral" },
    communicationQuality := Enhanced.analyzeCommunicationQuality,
    timestamp := 0 }

/-- An arbitrary trends value (the recommendation rules never read it). -/
def emptyTrends : Enhanced.Trends :=
  { volumeTrend := [], clarityTrend := [], paceTrend := [] }

/-- Claim C3: for every snapshot and trends input the recommendation
function returns at most 3 messages, taken in the fixed source rule
order (volume-too-low first); in particular, at the snapshot with
volume 10, clarity 90, pace 50 and no fluency or stability issues, the
first returned message is the speak-louder message. -/
theorem c3_recommendations :
    (∀ (m : Enhanced.EnhancedVoiceMetrics) (t : Enhanced.Trends),
      (Enhanced.generateRecommendations m t).length ≤ 3) ∧
    (Enhanced.generateRecommendations recTestMetrics emptyTrends).head? =
      some "Speak louder for better projection" := by
  constructor
  · intro m t
    unfold Enhanced.generateRecommendations
    exact List.length_take_le 3 _
  · rfl

/-- Claim C7: on a frame whose time-domain samples all sit at the zero
amplitude (byte value 128), the basic volume extractor, the basic
voice-activity detector and the enhanced volume extractor report
volume 0 and no voice activity.  Uses only `Math.sqrt 0 = 0`. -/
theorem c7_silence (mathSqrt : ℚ → ℚ) (td : List ℕ) (s : Enhanced.EnhancedState)
    (hsq : mathSqrt 0 = 0) (hall : ∀ x ∈ td, x = 128) (hda : s.dataArray = some td) :
    Basic.calculateVolume mathSqrt td = 0 ∧
    Basic.detectVoiceActivity mathSqrt td = false ∧
    Enhanced.calculateVolume mathSqrt s = 0 := by
  have hsum :
      (td.map (fun (d : ℕ) => let sample := ((d : ℚ) - 128) / 128; sample * sample)).sum = 0 := by
    apply List.sum_eq_zero
    intro x hx
    rcases List.mem_map.mp hx with ⟨d, hd, hdx⟩
    have hd128 : d = 128 := hall d hd
    subst hd128
    simp at hdx
    exact hdx.symm
  have hb : Basic.calculateVolume mathSqrt td = 0 := by
    unfold Basic.calculateVolume
    rw [hsum]
    simp [hsq]
  refine ⟨hb, ?_, ?_⟩
  · unfold Basic.detectVoiceActivity
    rw [hb]
    norm_num
  · simp only [Enhanced.calculateVolume, hda]
    rw [hsum]
    simp [hsq]

/-- Witness for C7: the silent two-sample frame [128, 128]. -/
theorem c7_silence_witness :
    sqrtZero 0 = 0 ∧ (∀ x ∈ ([128, 128] : List ℕ), x = 128) ∧
    c7State.dataArray = some [128, 128] ∧
    (Basic.calculateVolume sqrtZero [128, 128] = 0 ∧
     Basic.detectVoiceActivity sqrtZero [128, 128] = false ∧
     Enhanced.calculateVolume sqrtZero c7State = 0) :=
  ⟨rfl, by decide, rfl, c7_silence sqrtZero [128, 128] c7State rfl (by decide) rfl⟩

/-- Length of the history after one tick: grows by one until the
300-entry capacity, then stays at 300. -/
theorem historyPush_length {α : Type} (h : List α) (m : α) (hle : h.length ≤ 300) :
    (historyPush h m).length = min (h.length + 1) 300 := by
  unfold historyPush
  dsimp only
  split
  · rename_i hc
    simp only [List.length_tail, List.length_append, List.length_singleton] at hc ⊢
    omega
  · rename_i hc
    simp only [List.length_append, List.length_singleton] at hc ⊢
    omega

/-- One tick keeps the history a suffix of "everything ever pushed". -/
theorem historyPush_suffix {α : Type} (h : List α) (m : α) :
    ∃ u, h ++ [m] = u ++ historyPush h m := by
  unfold historyPush
  dsimp only
  split
  · cases hb : h ++ [m] with
    | nil => simp at hb
    | cons a t => exact ⟨[a], by simp [hb]⟩
  · exact ⟨[], by simp⟩

/-- Length of the history after any sequence of ticks. -/
theorem foldl_historyPush_length {α : Type} :
    ∀ (ms h : List α), h.length ≤ 300 →
      (ms.foldl historyPush h).length = min (h.length + ms.length) 300
  | [], h, hle => by simp; omega
  | m :: ms, h, hle => by
    have h1 := historyPush_length h m hle
    have h2 : (historyPush h m).length ≤ 300 := by omega
    have h3 := foldl_historyPush_length ms (historyPush h m) h2
    simp only [List.foldl_cons, List.length_cons]
    rw [h3, h1]
    omega

/-- The history after any sequence of ticks is a suffix of everything
ever pushed. -/
theorem foldl_historyPush_suffix {α : Type} :
    ∀ (ms h : List α), ∃ u, h ++ ms = u ++ ms.foldl historyPush h
  | [], h => ⟨[], by simp⟩
  | m :: ms, h => by
    obtain ⟨u1, hu1⟩ := historyPush_suffix h m
    obtain ⟨u2, hu2⟩ := foldl_historyPush_suffix ms (historyPush h m)
    refine ⟨u1 ++ u2, ?_⟩
    simp only [List.foldl_cons]
    calc h ++ m :: ms = (h ++ [m]) ++ ms := by simp
    _ = (u1 ++ historyPush h m) ++ ms := by rw [hu1]
    _ = u1 ++ (historyPush h m ++ ms) := by rw [List.append_assoc]
    _ = u1 ++ (u2 ++ ms.foldl historyPush (historyPush h m)) := by rw [hu2]
    _ = (u1 ++ u2) ++ ms.foldl historyPush (historyPush h m) := by rw [List.append_assoc]

/-- Full characterization: after pushing the snapshots `ms` in order
into an initially empty history, the history holds exactly the last 300
of them, in insertion order. -/
theorem foldl_historyPush_eq_drop {α : Type} (ms : List α) :
    ms.foldl historyPush [] = ms.drop (ms.length - 300) := by
  obtain ⟨u, hu⟩ := foldl_historyPush_suffix ms ([] : List α)
  rw [List.nil_append] at hu
  have hlen : (ms.foldl historyPush []).length = min ms.length 300 := by
    have h0 := foldl_historyPush_length ms ([] : List α) (by simp)
    simpa using h0
  have hlc := congrArg List.length hu
  rw [List.length_append, hlen] at hlc
  have hulen : ms.length - 300 = u.length := by omega
  calc ms.foldl historyPush []
      = (u ++ ms.foldl historyPush []).drop u.length := (List.drop_left u _).symm
    _ = ms.drop (ms.length - 300) := by rw [← hu, hulen]

/-- Claim C4: the metrics history is a capacity-300 FIFO.  After any
number of ticks it holds exactly the last (at most 300) snapshots in
insertion order — so its length never exceeds 300, each tick appends the
new snapshot at the end, and overflow evicts precisely the
first-inserted snapshot while preserving the order of the rest. -/
theorem c4_history_fifo (ms : List Enhanced.EnhancedVoiceMetrics) :
    (ms.foldl historyPush []).length ≤ 300 ∧
    ms.foldl historyPush [] = ms.drop (ms.length - 300) ∧
    ∀ m, historyPush (ms.foldl historyPush []) m =
      (ms ++ [m]).drop (ms.length + 1 - 300) := by
  refine ⟨?_, foldl_historyPush_eq_drop ms, ?_⟩
  · have h0 := foldl_historyPush_length ms ([] : List _) (by simp)
    simp at h0
    omega
  · intro m
    have hd := foldl_historyPush_eq_drop (ms ++ [m])
    rw [List.foldl_append] at hd
    simpa using hd

/-- The `split(' ')` model never returns the empty token list. -/
theorem splitSpace_ne_nil (s : List Char) : splitSpace s ≠ [] := by
  cases s with
  | nil => simp [splitSpace]
  | cons c rest =>
    unfold splitSpace
    cases h : splitSpace rest with
    | nil => simp
    | cons t ts =>
      by_cases hc : c = ' ' <;> simp [hc]

/-- Tokens produced by `split(' ')` contain no space character. -/
theorem not_space_mem_splitSpace : ∀ (s : List Char), ∀ w ∈ splitSpace s, ' ' ∉ w
  | [], w, hw => by
    simp [splitSpace] at hw
    subst hw
    simp
  | c :: rest, w, hw => by
    have ih := not_space_mem_splitSpace rest
    unfold splitSpace at hw
    cases h : splitSpace rest with
    | nil => exact absurd h (splitSpace_ne_nil rest)
    | cons t ts =>
      rw [h] at hw
      dsimp only at hw
      have htmem : t ∈ splitSpace rest := by rw [h]; exact List.mem_cons_self t ts
      by_cases hc : c = ' '
      · rw [if_pos hc] at hw
        rcases List.mem_cons.mp hw with hw | hw
        · subst hw; simp
        · exact ih w (by rw [h]; exact hw)
      · rw [if_neg hc] at hw
        rcases List.mem_cons.mp hw with hw | hw
        · subst hw
          intro hmem
          rcases List.mem_cons.mp hmem with hsc | hst
          · exact hc hsc.symm
          · exact ih t htmem hst
        · exact ih w (by rw [h]; exact List.mem_cons_of_mem t hw)

/-- The `trim` model only removes characters. -/
theorem mem_of_mem_trimL {a : Char} {w : List Char} (h : a ∈ trimL w) : a ∈ w := by
  unfold trimL at h
  rw [List.mem_reverse] at h
  have h1 := (List.dropWhile_sublist _).subset h
  rw [List.mem_reverse] at h1
  exact (List.dropWhile_sublist _).subset h1

/-- A space-free token is in the full filler lexicon precisely when it is
one of the single-word entries: the three multi-word entries contain a
space and can never equal a space-free token. -/
theorem trim_mem_lexicon_iff {w : List Char} (h : ' ' ∉ w) :
    w ∈ fillerWordsL ↔ w ∈ singleFillerWordsL := by
  constructor
  · intro hm
    unfold fillerWordsL at hm
    simp only [List.mem_cons, List.not_mem_nil, or_false] at hm
    rcases hm with h1 | h2 | h3 | h4 | h5 | h6 | h7 | h8
    · subst h1; decide
    · subst h2; decide
    · subst h3; decide
    · subst h4; exact absurd (by decide : ' ' ∈ "you know".toList) h
    · subst h5; exact absurd (by decide : ' ' ∈ "sort of".toList) h
    · subst h6; exact absurd (by decide : ' ' ∈ "kind of".toList) h
    · subst h7; decide
    · subst h8; decide
  · intro hm
    unfold singleFillerWordsL at hm
    simp only [List.mem_cons, List.not_mem_nil, or_false] at hm
    rcases hm with h1 | h2 | h3 | h4 | h5
    · subst h1; decide
    · subst h2; decide
    · subst h3; decide
    · subst h4; decide
    · subst h5; decide

/-- Claim C9 (amended): the filler-word count equals the number of
whitespace-split tokens of the lowercased transcript whose trimmed form
equals one of the single-word lexicon entries; the multi-word lexicon
entries never contribute, because the tokenization splits them apart. -/
theorem c9_filler_single_token (tb : List Char) :
    countFillerWords fillerWordsL tb = countFillerWords singleFillerWordsL tb := by
  unfold countFillerWords
  congr 1
  apply List.filter_congr
  intro w hw
  have hsp : ' ' ∉ w := not_space_mem_splitSpace _ w hw
  have hsp2 : ' ' ∉ trimL w := fun hc => hsp (mem_of_mem_trimL hc)
  simp only [decide_eq_decide]
  exact trim_mem_lexicon_iff hsp2

/-- Counterexample to claim C9 as stated: the transcript "you know"
contains exactly one case-insensitive occurrence of the lexicon entry
"you know", but `countFillerWords` reports 0. -/
theorem c9_multiword_missed :
    countFillerWords fillerWordsL ("you know".toList) = 0 ∧
    specFillerOccurrences ("you know".toList) = 1 := by decide

/-- Clamp `max 0 (min c x)` lands in `[0, c]` for `0 ≤ c`. -/
theorem clamp_range (c x : ℚ) (hc : 0 ≤ c) :
    0 ≤ max 0 (min c x) ∧ max 0 (min c x) ≤ c :=
  ⟨le_max_left 0 _, max_le hc (min_le_left c x)⟩

/-- The value `min c x` with a non-negative `x` lands in `[0, c]` for `0 ≤ c`. -/
theorem min_range (c x : ℚ) (hc : 0 ≤ c) (hx : 0 ≤ x) :
    0 ≤ min c x ∧ min c x ≤ c :=
  ⟨le_min hc hx, min_le_left c x⟩

/-- The fundamental-frequency estimate is positive on every state:
either the 150 Hz default or `44100 / period` for a positive period. -/
theorem detectFundamentalFrequency_pos (s : Enhanced.EnhancedState) :
    0 < Enhanced.detectFundamentalFrequency s := by
  unfold Enhanced.detectFundamentalFrequency
  cases s.audioBuffer.getLast? with
  | none => norm_num
  | some latestBuffer =>
    dsimp only
    split
    · rename_i hpos
      apply div_pos (by norm_num)
      exact_mod_cast hpos
    · norm_num

/-- The enhanced volume extractor stays in [0, 100] whenever the square
root is non-negative. -/
theorem enh_volume_range (mathSqrt : ℚ → ℚ) (s : Enhanced.EnhancedState)
    (hsq : ∀ q, 0 ≤ mathSqrt q) :
    0 ≤ Enhanced.calculateVolume mathSqrt s ∧ Enhanced.calculateVolume mathSqrt s ≤ 100 := by
  unfold Enhanced.calculateVolume
  cases s.dataArray with
  | none => norm_num
  | some td =>
    dsimp only
    exact min_range 100 _ (by norm_num) (mul_nonneg (hsq _) (by norm_num))

/-- The enhanced clarity extractor stays in [0, 100]: the final clamp
forces the range whatever the component values are. -/
theorem enh_clarity_range (s : Enhanced.EnhancedState) :
    0 ≤ Enhanced.calculateClarity s ∧ Enhanced.calculateClarity s ≤ 100 := by
  unfold Enhanced.calculateClarity
  cases s.frequencyData with
  | none => norm_num
  | some fd => exact clamp_range 100 _ (by norm_num)

/-- The enhanced pace extractor stays in [0, 100]: 50 with a short ring,
a clamped rate otherwise. -/
theorem enh_pace_range (s : Enhanced.EnhancedState) :
    0 ≤ Enhanced.calculatePace s ∧ Enhanced.calculatePace s ≤ 100 := by
  unfold Enhanced.calculatePace
  split
  · norm_num
  · exact clamp_range 100 _ (by norm_num)

/-- The HNR estimate stays in [0, 30]: 15 with a null spectrum, a
clamped decibel-like value otherwise — for every value of `Math.log10`. -/
theorem enh_hnr_range (log10 : ℚ → ℚ) (s : Enhanced.EnhancedState) :
    0 ≤ Enhanced.estimateHNR log10 s ∧ Enhanced.estimateHNR log10 s ≤ 30 := by
  unfold Enhanced.estimateHNR
  cases s.frequencyData with
  | none => norm_num
  | some fd => exact clamp_range 30 _ (by norm_num)

/-- Ranges of the voice-stability record: jitter in [0, 10], HNR in
[0, 30] always; shimmer is a finite number in [0, 10] provided the five
recent RMS amplitudes do not sum to zero (see the silent-input
counterexample for the excluded case). -/
theorem enh_stability_range (mathSqrt log10 : ℚ → ℚ) (s : Enhanced.EnhancedState)
    (hsq : ∀ q, 0 ≤ mathSqrt q)
    (hamp : 5 ≤ s.audioBuffer.length → (Enhanced.recentAmplitudes mathSqrt s).sum ≠ 0) :
    (0 ≤ (Enhanced.analyzeVoiceStability mathSqrt log10 s).jitter ∧
     (Enhanced.analyzeVoiceStability mathSqrt log10 s).jitter ≤ 10) ∧
    (0 ≤ (Enhanced.analyzeVoiceStability mathSqrt log10 s).harmonicNoise ∧
     (Enhanced.analyzeVoiceStability mathSqrt log10 s).harmonicNoise ≤ 30) ∧
    (∃ sh : ℚ, (Enhanced.analyzeVoiceStability mathSqrt log10 s).shimmer = JsNum.num sh ∧
      0 ≤ sh ∧ sh ≤ 10) := by
  by_cases h5 : s.audioBuffer.length < 5
  · unfold Enhanced.analyzeVoiceStability
    rw [if_pos h5]
    exact ⟨⟨by norm_num, by norm_num⟩, ⟨by norm_num, by norm_num⟩,
      ⟨0, rfl, by norm_num, by norm_num⟩⟩
  · have h5' : 5 ≤ s.audioBuffer.length := by omega
    have hamp' := hamp h5'
    unfold Enhanced.analyzeVoiceStability
    rw [if_neg h5]
    dsimp only
    set P := Enhanced.recentPitchValues s with hP
    set A := Enhanced.recentAmplitudes mathSqrt s with hA
    have hPpos : ∀ p ∈ P, 0 < p := by
      intro p hp
      rw [hP] at hp
      unfold Enhanced.recentPitchValues at hp
      rcases List.mem_map.mp hp with ⟨w, _, rfl⟩
      exact detectFundamentalFrequency_pos s
    have hPsum : 0 ≤ P.sum := List.sum_nonneg (fun p hp => (hPpos p hp).le)
    have havgP : 0 ≤ P.sum / (P.length : ℚ) := div_nonneg hPsum (Nat.cast_nonneg _)
    have habs : 0 ≤ (P.map (fun p => |p - P.sum / (P.length : ℚ)|)).sum := by
      apply List.sum_nonneg
      intro x hx
      rcases List.mem_map.mp hx with ⟨p, _, rfl⟩
      exact abs_nonneg _
    have hX : 0 ≤ (P.map (fun p => |p - P.sum / (P.length : ℚ)|)).sum /
        ((P.map (fun p => |p - P.sum / (P.length : ℚ)|)).length : ℚ) /
        (P.sum / (P.length : ℚ)) * 100 :=
      mul_nonneg (div_nonneg (div_nonneg habs (Nat.cast_nonneg _)) havgP) (by norm_num)
    have hAnn : ∀ a ∈ A, 0 ≤ a := by
      intro a ha
      rw [hA] at ha
      unfold Enhanced.recentAmplitudes at ha
      rcases List.mem_map.mp ha with ⟨w, _, rfl⟩
      exact hsq _
    have hAsum : 0 ≤ A.sum := List.sum_nonneg hAnn
    have hAlen : A.length ≠ 0 := by
      rw [hA]
      unfold Enhanced.recentAmplitudes
      rw [List.length_map, List.length_drop]
      omega
    have havgA_ne : A.sum / (A.length : ℚ) ≠ 0 :=
      div_ne_zero hamp' (by exact_mod_cast hAlen)
    have havgA_nonneg : 0 ≤ A.sum / (A.length : ℚ) := div_nonneg hAsum (Nat.cast_nonneg _)
    have hmv : 0 ≤ (A.map (fun a => |a - A.sum / (A.length : ℚ)|)).sum /
        ((A.map (fun a => |a - A.sum / (A.length : ℚ)|)).length : ℚ) := by
      apply div_nonneg _ (Nat.cast_nonneg _)
      apply List.sum_nonneg
      intro x hx
      rcases List.mem_map.mp hx with ⟨a, _, rfl⟩
      exact abs_nonneg _
    have hdiv : jsDiv ((A.map (fun a => |a - A.sum / (A.length : ℚ)|)).sum /
        ((A.map (fun a => |a - A.sum / (A.length : ℚ)|)).length : ℚ)) (A.sum / (A.length : ℚ)) =
        JsNum.num ((A.map (fun a => |a - A.sum / (A.length : ℚ)|)).sum /
          ((A.map (fun a => |a - A.sum / (A.length : ℚ)|)).length : ℚ) / (A.sum / (A.length : ℚ))) := by
      unfold jsDiv
      rw [if_neg havgA_ne]
    refine ⟨min_range 10 _ (by norm_num) hX, ⟨(enh_hnr_range log10 s).1, (enh_hnr_range log10 s).2⟩, ?_⟩
    rw [hdiv]
    refine ⟨min 10 ((A.map (fun a => |a - A.sum / (A.length : ℚ)|)).sum /
      ((A.map (fun a => |a - A.sum / (A.length : ℚ)|)).length : ℚ) / (A.sum / (A.length : ℚ)) * 100),
      rfl, ?_, ?_⟩
    · exact le_min (by norm_num) (mul_nonneg (div_nonneg hmv havgA_nonneg) (by norm_num))
    · exact min_le_left _ _

/-- Concrete instantiation of `Math.sqrt` for the voiced witness state:
correct at the only radicands arising there (0 and 1), and non-negative
everywhere. -/
def sqrtSimple : ℚ → ℚ := fun q => if q = 1 then 1 else 0

/-- An initialized enhanced analyzer whose ring holds five silent
one-sample raw windows. -/
def silentState : Enhanced.EnhancedState :=
  { Enhanced.initialState with
    analyser := true
    dataArray := some [128]
    frequencyData := some []
    audioBuffer := [[0], [0], [0], [0], [0]] }

/-- An initialized enhanced analyzer whose ring holds five full-scale
one-sample raw windows. -/
def voicedState : Enhanced.EnhancedState :=
  { Enhanced.initialState with
    analyser := true
    dataArray := some [128]
    frequencyData := some []
    audioBuffer := [[1], [1], [1], [1], [1]] }

/-- Counterexample to claim C1 as stated: on five silent raw windows
(every sample 0 — a normal microphone condition), the five RMS
amplitudes are all 0, the shimmer computation divides 0 by 0, and
JavaScript yields `Math.min(10, NaN) = NaN`: the voice-stability
extractor returns NaN for shimmer, violating "no extractor ever returns
NaN".  (`Math.sqrt` is only called at radicand 0 here, where it returns
0, as `sqrtZero` does.) -/
theorem c1_silent_shimmer_nan :
    (Enhanced.analyzeVoiceStability sqrtZero log10Zero silentState).shimmer = JsNum.nan := by
  have hlen : ¬ silentState.audioBuffer.length < 5 := by decide
  have hA : Enhanced.recentAmplitudes sqrtZero silentState = [0, 0, 0, 0, 0] := by
    simp [Enhanced.recentAmplitudes, silentState, Enhanced.initialState, sqrtZero]
  unfold Enhanced.analyzeVoiceStability
  rw [if_neg hlen]
  dsimp only
  rw [hA]
  norm_num [jsDiv, jsMulC, jsMinC]

/-- Claim C1 (amended): for every finite audio input with non-empty
time-domain frames and non-empty raw windows, volume, clarity and pace
stay within [0, 100], jitter within [0, 10], and the harmonic-to-noise
ratio within [0, 30], with no NaN; shimmer is a finite value within
[0, 10] provided the five most recent window RMS amplitudes are not all
zero — for all-silent windows the code yields NaN
(`c1_silent_shimmer_nan`). -/
theorem c1_extractor_ranges (mathSqrt log10 : ℚ → ℚ) (now : ℚ) (s : Enhanced.EnhancedState)
    (hsq : ∀ q, 0 ≤ mathSqrt q)
    (_hframe : ∀ td, s.dataArray = some td → td ≠ [])
    (_hwin : ∀ w ∈ s.audioBuffer, w ≠ [])
    (hamp : 5 ≤ s.audioBuffer.length → (Enhanced.recentAmplitudes mathSqrt s).sum ≠ 0) :
    (0 ≤ (Enhanced.calculateEnhancedMetrics mathSqrt log10 now s).volume ∧
     (Enhanced.calculateEnhancedMetrics mathSqrt log10 now s).volume ≤ 100) ∧
    (0 ≤ (Enhanced.calculateEnhancedMetrics mathSqrt log10 now s).clarity ∧
     (Enhanced.calculateEnhancedMetrics mathSqrt log10 now s).clarity ≤ 100) ∧
    (0 ≤ (Enhanced.calculateEnhancedMetrics mathSqrt log10 now s).pace ∧
     (Enhanced.calculateEnhancedMetrics mathSqrt log10 now s).pace ≤ 100) ∧
    (0 ≤ (Enhanced.calculateEnhancedMetrics mathSqrt log10 now s).voiceStability.jitter ∧
     (Enhanced.calculateEnhancedMetrics mathSqrt log10 now s).voiceStability.jitter ≤ 10) ∧
    (0 ≤ (Enhanced.calculateEnhancedMetrics mathSqrt log10 now s).voiceStability.harmonicNoise ∧
     (Enhanced.calculateEnhancedMetrics mathSqrt log10 now s).voiceStability.harmonicNoise ≤ 30) ∧
    (∃ sh : ℚ,
      (Enhanced.calculateEnhancedMetrics mathSqrt log10 now s).voiceStability.shimmer =
        JsNum.num sh ∧ 0 ≤ sh ∧ sh ≤ 10) := by
  have hst := enh_stability_range mathSqrt log10 s hsq hamp
  simp only [Enhanced.calculateEnhancedMetrics]
  exact ⟨enh_volume_range mathSqrt s hsq, enh_clarity_range s, enh_pace_range s,
    hst.1, hst.2.1, hst.2.2⟩

/-- Witness for C1 (amended) at the voiced five-window state. -/
theorem c1_extractor_ranges_witness :
    (∀ q, 0 ≤ sqrtSimple q) ∧
    (∀ td, voicedState.dataArray = some td → td ≠ []) ∧
    (∀ w ∈ voicedState.audioBuffer, w ≠ []) ∧
    (5 ≤ voicedState.audioBuffer.length →
      (Enhanced.recentAmplitudes sqrtSimple voicedState).sum ≠ 0) ∧
    ((0 ≤ (Enhanced.calculateEnhancedMetrics sqrtSimple log10Zero 0 voicedState).volume ∧
      (Enhanced.calculateEnhancedMetrics sqrtSimple log10Zero 0 voicedState).volume ≤ 100) ∧
     (0 ≤ (Enhanced.calculateEnhancedMetrics sqrtSimple log10Zero 0 voicedState).clarity ∧
      (Enhanced.calculateEnhancedMetrics sqrtSimple log10Zero 0 voicedState).clarity ≤ 100) ∧
     (0 ≤ (Enhanced.calculateEnhancedMetrics sqrtSimple log10Zero 0 voicedState).pace ∧
      (Enhanced.calculateEnhancedMetrics sqrtSimple log10Zero 0 voicedState).pace ≤ 100) ∧
     (0 ≤ (Enhanced.calculateEnhancedMetrics sqrtSimple log10Zero 0 voicedState).voiceStability.jitter ∧
      (Enhanced.calculateEnhancedMetrics sqrtSimple log10Zero 0 voicedState).voiceStability.jitter ≤ 10) ∧
     (0 ≤ (Enhanced.calculateEnhancedMetrics sqrtSimple log10Zero 0 voicedState).voiceStability.harmonicNoise ∧
      (Enhanced.calculateEnhancedMetrics sqrtSimple log10Zero 0 voicedState).voiceStability.harmonicNoise ≤ 30) ∧
     (∃ sh : ℚ,
       (Enhanced.calculateEnhancedMetrics sqrtSimple log10Zero 0 voicedState).voiceStability.shimmer =
         JsNum.num sh ∧ 0 ≤ sh ∧ sh ≤ 10)) := by
  have hsqS : ∀ q, 0 ≤ sqrtSimple q := by
    intro q
    unfold sqrtSimple
    split <;> norm_num
  have hframeS : ∀ td, voicedState.dataArray = some td → td ≠ [] := by
    intro td h
    have h2 : some ([128] : List ℕ) = some td := h
    injection h2 with h3
    subst h3
    decide
  have hwinS : ∀ w ∈ voicedState.audioBuffer, w ≠ [] := by decide
  have hampS : 5 ≤ voicedState.audioBuffer.length →
      (Enhanced.recentAmplitudes sqrtSimple voicedState).sum ≠ 0 := by
    intro h5
    have hA : Enhanced.recentAmplitudes sqrtSimple voicedState = [1, 1, 1, 1, 1] := by
      simp [Enhanced.recentAmplitudes, voicedState, Enhanced.initialState, Enhanced.sumSq,
        sqrtSimple]
    rw [hA]
    norm_num
  exact ⟨hsqS, hframeS, hwinS, hampS,
    c1_extractor_ranges sqrtSimple log10Zero 0 voicedState hsqS hframeS hwinS hampS⟩

/-- Counterexample to claim C2 as stated: the basic pace
extractor (`VoiceAnalyzer.estimateSpeakingPace`, src/unnamed/part_000
lines 126-130) reads no audio data at all and returns
`Math.random() * 120 + 60`.  Two calls — necessarily made with
identical audio frames and identical raw-window history, since the
extractor consumes neither — whose pseudo-random draws are 0 and 1/2
return 60 and 120. -/
theorem c2_basic_pace_random :
    Basic.estimateSpeakingPace 0 ≠ Basic.estimateSpeakingPace (1/2) := by
  unfold Basic.estimateSpeakingPace
  norm_num

/-- Claim C2 (amended): except for the basic pace estimator
and the advanced filler-word detector (both of which consume
pseudo-random draws), every extractor is a deterministic function of the
analyzer state it reads.  In particular the whole enhanced metrics
snapshot (volume, pitch, clarity, pace, stability, fluency including
filler-word counting, emotion) depends only on the captured frames, the
raw-window ring, the transcription buffer and the metrics history: two
states agreeing on those fields produce identical snapshots. -/
theorem c2_extractors_deterministic (mathSqrt log10 : ℚ → ℚ) (now : ℚ)
    (s1 s2 : Enhanced.EnhancedState)
    (hda : s1.dataArray = s2.dataArray) (hfd : s1.frequencyData = s2.frequencyData)
    (hab : s1.audioBuffer = s2.audioBuffer)
    (htb : s1.transcriptionBuffer = s2.transcriptionBuffer)
    (hmh : s1.metricsHistory = s2.metricsHistory) :
    Enhanced.calculateEnhancedMetrics mathSqrt log10 now s1 =
      Enhanced.calculateEnhancedMetrics mathSqrt log10 now s2 := by
  simp only [Enhanced.calculateEnhancedMetrics, Enhanced.calculateVolume,
    Enhanced.calculatePitch, Enhanced.detectFundamentalFrequency, Enhanced.calculateClarity,
    Enhanced.calculateSpectralCentroid, Enhanced.calculateSpectralRolloff,
    Enhanced.calculateZeroCrossingRate, Enhanced.calculatePace, Enhanced.analyzeVoiceStability,
    Enhanced.recentPitchValues, Enhanced.recentAmplitudes, Enhanced.estimateHNR,
    Enhanced.findSpectralPeaks, Enhanced.analyzeFluency, Enhanced.analyzePauses,
    Enhanced.calculateSpeechRate, Enhanced.calculateArticulation,
    Enhanced.calculateHighFrequencyEnergy, Enhanced.analyzeEmotion,
    hda, hfd, hab, htb, hmh]

/-- States for the C2 witness: identical analysis-relevant fields,
different `isAnalyzing` flag. -/
def detStateA : Enhanced.EnhancedState :=
  { Enhanced.initialState with
    analyser := true
    dataArray := some [128]
    frequencyData := some [] }

/-- Same analysis-relevant fields as `detStateA`, different flag. -/
def detStateB : Enhanced.EnhancedState :=
  { detStateA with isAnalyzing := true }

/-- Witness for C2 (amended). -/
theorem c2_extractors_deterministic_witness :
    detStateA.dataArray = detStateB.dataArray ∧
    detStateA.frequencyData = detStateB.frequencyData ∧
    detStateA.audioBuffer = detStateB.audioBuffer ∧
    detStateA.transcriptionBuffer = detStateB.transcriptionBuffer ∧
    detStateA.metricsHistory = detStateB.metricsHistory ∧
    Enhanced.calculateEnhancedMetrics sqrtZero log10Zero 0 detStateA =
      Enhanced.calculateEnhancedMetrics sqrtZero log10Zero 0 detStateB :=
  ⟨rfl, rfl, rfl, rfl, rfl,
    c2_extractors_deterministic sqrtZero log10Zero 0 detStateA detStateB rfl rfl rfl rfl rfl⟩
